import Mathlib

/-
  Verification of the Nuwa plugin-orchestration core.

  Shallow embedding of the Python sources under src/: each Lean definition
  translates one Python function or class. Machine-level details that no
  claim depends on (wall-clock timestamps, JSON value payloads, logging)
  are abstracted behind simple stand-in types, noted at each definition.
  Exceptions are modelled with Except: a value .error e means the Python
  code raised an exception whose message is e; .ok v means it returned v.
-/

namespace Nuwa

/-- Stand-in for an arbitrary Python value (Any) carried through calls.
    No claim inspects the payload, only moves it around. -/
abbrev Value := String

/-- Stand-in for a Python dict used as keyword arguments or step params.
    Claims only compare these for equality. -/
abbrev Params := List (String × String)

/-- Task and step status values, from src/core/tasks/model/models.py
    (class TaskStatus). -/
inductive TaskStatus where
  | pending
  | scheduled
  | running
  | success
  | failed
  | cancelled
  | paused
  | timeout
deriving DecidableEq, Repr

/- ===================== Planner response models ===================== -/

/-- Translation of FunctionSelection from
    src/core/ai/providers/response/functions_data.py. The Python float
    confidence is modelled as Rat; no claim computes with it. -/
structure FunctionSelection where
  plugin_name : String
  plugin_id : String
  function_name : String
  full_method_name : String
  description : String
  reason : String
  confidence : Rat
  required_params : List String := []
  suggested_params : Option Params := none
deriving DecidableEq

instance : Inhabited FunctionSelection :=
  ⟨⟨"", "", "", "", "", "", 0, [], none⟩⟩

/-- Translation of ExecutionPlan from
    src/core/ai/providers/response/functions_data.py. The Python ints of
    execution_order are modelled as Int (JSON integers may be negative). -/
structure ExecutionPlan where
  analysis : String := ""
  selected_functions : List FunctionSelection := []
  execution_order : List Int := []
  overall_confidence : Rat := 0
deriving DecidableEq

/-- Translation of ExecutionPlan.get_ordered_functions: for each order
    index, append selected_functions[order - 1] when 1 <= order <= len,
    else silently skip. The in-range guard makes the optional index lookup
    always succeed, matching the unchecked Python indexing. -/
def ExecutionPlan.get_ordered_functions (p : ExecutionPlan) : List FunctionSelection :=
  p.execution_order.filterMap (fun order =>
    if 1 ≤ order ∧ order ≤ (p.selected_functions.length : Int) then
      p.selected_functions[(order - 1).toNat]?
    else
      none)

/-- Restatement of the claim wording for C6, used only to compare against
    the translated get_ordered_functions: keep exactly the in-range
    indices, in order, and map each index o to the function at 1-based
    position o. -/
def orderedFunctionsSpec (p : ExecutionPlan) : List FunctionSelection :=
  (p.execution_order.filter
      (fun o => decide (1 ≤ o ∧ o ≤ (p.selected_functions.length : Int)))).map
    (fun o => p.selected_functions.getD (o - 1).toNat default)

/- ===================== Plugin environment (C9) ===================== -/

/-- Stand-in for the contents of one loaded Python module. -/
abbrev ModuleVal := String

/-- Global interpreter state touched by PluginEnvironment: the module
    table sys.modules and the search path sys.path, from
    src/core/utils/plugin_loader/environment.py. -/
structure SysState where
  modules : List (String × ModuleVal)
  path : List String
deriving DecidableEq

/-- Snapshot taken on entry: copies of the module table and path. -/
structure EnvSnapshot where
  original_modules : List (String × ModuleVal)
  original_path : List String
deriving DecidableEq

/-- Module names the environment temporarily hides on entry
    (potential_conflicts in _backup_conflicting_modules). -/
def potentialConflicts : List String :=
  ["model", "models", "services", "interface", "utils", "core", "config", "api"]

/-- Association-list erasure of one module entry, modelling del
    sys.modules[name]. -/
def eraseModule (ms : List (String × ModuleVal)) (name : String) : List (String × ModuleVal) :=
  ms.filter (fun kv => kv.fst ≠ name)

/-- Translation of PluginEnvironment._backup_conflicting_modules: for each
    conflicting name present, store it under a backup key and delete the
    original entry. envId stands in for the Python id(self) suffix. -/
def backupConflictingModules (envId : String) (ms : List (String × ModuleVal)) :
    List (String × ModuleVal) :=
  potentialConflicts.foldl
    (fun acc name =>
      match acc.lookup name with
      | some v => eraseModule acc name ++ [("_backup_" ++ name ++ "_" ++ envId, v)]
      | none => acc)
    ms

/-- Translation of PluginEnvironment.__enter__: snapshot the current
    module table and path, hide conflicting modules, and push the plugin
    directory onto the front of the search path. -/
def pluginEnvEnter (s : SysState) (pluginPath envId : String) : EnvSnapshot × SysState :=
  let snap : EnvSnapshot := ⟨s.modules, s.path⟩
  (snap,
   { modules := backupConflictingModules envId s.modules,
     path := pluginPath :: s.path })

/-- Translation of PluginEnvironment.__exit__: clear the module table and
    path and restore them from the snapshot, unconditionally. -/
def pluginEnvExit (snap : EnvSnapshot) (_s : SysState) : SysState :=
  { modules := snap.original_modules, path := snap.original_path }

/-- Python with-statement semantics around a PluginEnvironment: enter, run
    the body (which may mutate the state and either return a value or
    raise), then run exit on both the normal and the raising path. The
    body returns its outcome together with the state at the moment it
    finished or raised. -/
def withPluginEnvironment {E A : Type} (s : SysState) (pluginPath envId : String)
    (body : SysState → Except E A × SysState) : Except E A × SysState :=
  let (snap, entered) := pluginEnvEnter s pluginPath envId
  let (outcome, afterBody) := body entered
  (outcome, pluginEnvExit snap afterBody)

/- ===================== Completion capability (C3, C8) ===================== -/

/-- One entry of the selected_plugins array as parsed from JSON, before
    validation: each key may be absent. From
    src/core/ai/providers/response/plugins_selection.py (from_content). -/
structure RawPluginEntry where
  plugin_name : Option String := none
  plugin_id : Option String := none
  reason : Option String := none
  confidence : Option Rat := none
deriving DecidableEq

/-- Parsed shape of a completion response text consumed by the planner
    selection stage. invalid models text that json.loads rejects;
    selectionObj models a parsed JSON value, each required key optionally
    present. A parsed value of a non-object shape behaves like an object
    missing all three keys, so it is covered by selectionObj none none
    none. -/
inductive AIContent where
  | invalid (msg : String)
  | selectionObj (analysis : Option String) (selected_plugins : Option (List RawPluginEntry))
      (overall_confidence : Option Rat)
deriving DecidableEq

/-- Translation of SelectionResponse from
    src/core/ai/providers/response/selection_response.py. The data field
    (Any in Python) is modelled as the parsed content the planner reads
    from it. -/
structure SelectionResponse where
  success : Bool
  timestamp : String := ""
  error_code : String := ""
  error_message : String := ""
  details : Option String := none
  data : Option AIContent := none
deriving DecidableEq

/-- Outcome of one provider invocation: .error is an exception raised by
    get_completion, .ok is the response it returned. -/
abbrev ProviderOutcome := Except String SelectionResponse

/-- Model of AIManager for the fallback path: the configured providers in
    registration order, each paired with the outcome its get_completion
    produces for the prompts of the call under study. Each provider is
    invoked at most once per fallback call, so a fixed outcome is
    faithful. From src/core/ai/manager.py. -/
structure AIManager where
  providers : List (String × ProviderOutcome)

/-- ASCII lowercase of one character, modelling Python str.lower on the
    provider names in play. -/
def charLower (c : Char) : Char :=
  if 65 ≤ c.toNat ∧ c.toNat ≤ 90 then Char.ofNat (c.toNat + 32) else c

/-- ASCII lowercase of a string. -/
def strLower (s : String) : String := String.mk (s.data.map charLower)

/-- Case-insensitive provider lookup from AIManager.call_with_fallback:
    the first configured name whose lowercase form matches. -/
def findProvider (providers : List (String × ProviderOutcome)) (name : String) :
    Option (String × ProviderOutcome) :=
  providers.find? (fun kv => strLower kv.fst == strLower name)

/-- Loop body of AIManager.call_with_fallback: walk the provider names,
    skipping unconfigured ones; a raising provider records the last
    exception; an unsuccessful response is skipped without recording; the
    first successful response is returned. When the names run out, the
    recorded last exception is re-raised, else a generic RuntimeError is
    raised (the source formats the attempted names into that message;
    the constant stands in for it). -/
def callWithFallbackGo (providers : List (String × ProviderOutcome)) :
    List String → Option String → ProviderOutcome
  | [], some e => .error e
  | [], none => .error "All providers failed"
  | name :: rest, last =>
      match findProvider providers name with
      | none => callWithFallbackGo providers rest last
      | some kv =>
          match kv.snd with
          | .error e => callWithFallbackGo providers rest (some e)
          | .ok r => if r.success then .ok r else callWithFallbackGo providers rest last

/-- Translation of AIManager.call_with_fallback: try the primary then the
    ordered fallback list. -/
def AIManager.call_with_fallback (m : AIManager) (primary : String)
    (fallback_providers : List String) : ProviderOutcome :=
  callWithFallbackGo m.providers (primary :: fallback_providers) none

/-- Outcomes of the providers that would actually be attempted, in try
    order: unconfigured names contribute nothing. -/
def fallbackAttempts (m : AIManager) (names : List String) : List ProviderOutcome :=
  names.filterMap (fun n => (findProvider m.providers n).map Prod.snd)

/-- Restatement of the amended C3 wording over the attempted outcomes: the
    first outcome that is a response reporting success wins; otherwise the
    last exception among the outcomes is propagated; if no outcome was an
    exception, a generic all-failed error results. -/
def fallbackSpecGo : List ProviderOutcome → Option String → ProviderOutcome
  | [], some e => .error e
  | [], none => .error "All providers failed"
  | .error e :: rest, _ => fallbackSpecGo rest (some e)
  | .ok r :: rest, last => if r.success then .ok r else fallbackSpecGo rest last

/-- Spec-side fallback semantics for the amended C3 claim. -/
def fallbackSpec (outcomes : List ProviderOutcome) : ProviderOutcome :=
  fallbackSpecGo outcomes none

/-- Concrete successful response used in the C3 scenarios. -/
def respC : SelectionResponse := { success := true }

/-- Concrete unsuccessful response used in the C3 counterexample: provider
    B executes without raising but reports failure. -/
def respBFail : SelectionResponse := { success := false, error_message := "B reported failure" }

/-- Concrete manager for the C3 counterexample: provider A raises, the
    last provider B returns an unsuccessful response. -/
def managerAB : AIManager := ⟨[("A", .error "errA"), ("B", .ok respBFail)]⟩

/- ===================== Plugin runtime (C1, C4) ===================== -/

/-- One entry of a plugin service function catalog as PluginManager.call
    reads it: only the name key is consulted (fun.get of name for dicts,
    getattr with default None for objects; either may be absent). -/
structure FunctionEntry where
  name : Option String := none

/-- Translation of PluginServiceDefinition from
    src/core/plugin/model/service.py, specialized to what call touches:
    functions is the catalog already normalized (the source accepts a
    callable returning the list or the literal list; call normalizes both
    to the list), and invoke models calling the named method of the
    object returned by the instance provider with the given kwargs,
    awaited if asynchronous; .error is a raised exception, which also
    covers a missing attribute on the instance. -/
structure PluginServiceDefinition where
  functions : List FunctionEntry := []
  invoke : String → Params → Except String Value
  config : Params := []

/-- Translation of PluginRegistration from
    src/core/plugin/model/registration.py. path is Option because the
    registry rejects a None path explicitly. The metadata block carries
    nothing any claim reads and is omitted. -/
structure PluginRegistration where
  path : Option String
  entry_file : String
  plugin_services : List PluginServiceDefinition := []
  id : String
  load_status : Option String := some "pending"
  error : Option String := none
  registered_at : Option String := none
  is_enabled : Bool := true

/-- Translation of the Result wrapper from src/core/utils/Result.py. -/
structure Result where
  is_success : Bool
  value : Option Value := none
  error : Option String := none
deriving DecidableEq

/-- Result.ok: a successful Result carrying the invocation value. -/
def Result.mkOk (v : Value) : Result := { is_success := true, value := some v }

/-- Loop body of PluginManager.call from src/core/plugin/manager.py: scan
    the services in order; inside the first service whose catalog holds an
    entry named method_name, invoke the instance method and wrap its value
    in an ok Result; a raising invocation is logged and re-raised; if no
    catalog matches, an exception stating the method was not found is
    raised (and re-raised by the enclosing except block). -/
def callServices (plugin_id method_name : String) (kwargs : Params) :
    List PluginServiceDefinition → Except String Result
  | [] => .error ("Method " ++ method_name ++ " not found in plugin " ++ plugin_id)
  | s :: rest =>
      match s.functions.find? (fun f => f.name == some method_name) with
      | some _ =>
          match s.invoke method_name kwargs with
          | .ok v => .ok (Result.mkOk v)
          | .error e => .error e
      | none => callServices plugin_id method_name kwargs rest

/-- Translation of PluginManager.call: .ok is the returned Result, .error
    is an exception escaping the call. -/
def PluginManager.call (plugin : PluginRegistration) (method_name : String)
    (kwargs : Params) : Except String Result :=
  callServices plugin.id method_name kwargs plugin.plugin_services

/-- First service whose catalog contains an entry named method_name; used
    to characterize call. -/
def findServiceWithMethod (services : List PluginServiceDefinition) (method_name : String) :
    Option PluginServiceDefinition :=
  services.find? (fun s => s.functions.any (fun f => f.name == some method_name))

/-- Translation of PluginRegistry._get_plugin_by_path from
    src/core/plugin/registry.py: first registration whose path equals the
    given one. -/
def PluginRegistry.getPluginByPath (reg : List PluginRegistration) (path : Option String) :
    Option PluginRegistration :=
  reg.find? (fun r => r.path == path)

/-- Translation of PluginRegistry.unregister: raise when the id is absent,
    else delete its entry. The registry dict has unique ids, so removing
    every entry with the id models del of the single key. -/
def PluginRegistry.unregister (reg : List PluginRegistration) (plugin_id : String) :
    Except String (List PluginRegistration) :=
  if reg.any (fun r => r.id == plugin_id) then
    .ok (reg.filter (fun r => r.id != plugin_id))
  else
    .error ("Plugin " ++ plugin_id ++ " is not registered.")

/-- Translation of PluginRegistry.register: reject a None path; when a
    registration already exists at the same path, unregister it and give
    its id to the incoming registration; then insert, raising if the id is
    somehow already present. -/
def PluginRegistry.register (reg : List PluginRegistration) (p : PluginRegistration) :
    Except String (List PluginRegistration) :=
  match p.path with
  | none => .error "Plugin path cannot be None."
  | some _ =>
      match PluginRegistry.getPluginByPath reg p.path with
      | some exist =>
          match PluginRegistry.unregister reg exist.id with
          | .error e => .error e
          | .ok reg2 =>
              let p2 := { p with id := exist.id }
              if reg2.any (fun r => r.id == p2.id) then
                .error ("Plugin " ++ p2.id ++ " is already registered.")
              else .ok (reg2 ++ [p2])
      | none =>
          if reg.any (fun r => r.id == p.id) then
            .error ("Plugin " ++ p.id ++ " is already registered.")
          else .ok (reg ++ [p])

/-- Number of registrations at a given filesystem path. -/
def pathCount (reg : List PluginRegistration) (pth : String) : Nat :=
  (reg.filter (fun r => r.path == some pth)).length

/-- Invariant: at most one registration per filesystem path. -/
def PathDistinct (reg : List PluginRegistration) : Prop :=
  ∀ pth, pathCount reg pth ≤ 1

/-- Invariant: registration ids are pairwise distinct (the registry is a
    dict keyed by id). -/
def IdsNodup (reg : List PluginRegistration) : Prop :=
  (reg.map (fun r => r.id)).Nodup

/- ===================== Executor and scheduler (C1, C5, C10) ===================== -/

/-- Translation of TaskStepResponse from src/core/tasks/model/response.py,
    restricted to the fields the executor reads. -/
structure TaskStepResponse where
  step_id : String
  plugin_id : String
  plugin_name : String
  function_name : String
  params : Params := []
  status : TaskStatus := .pending
deriving DecidableEq

/-- Translation of TaskResponse restricted to the fields the executor and
    scheduler read. -/
structure TaskResponse where
  task_id : String
  user_id : String := ""
  description : String := ""
  status : TaskStatus := .pending
  steps : List TaskStepResponse := []
deriving DecidableEq

/-- Translation of StepExecutionResult from
    src/core/tasks/model/response.py. The wall-clock started_at,
    finished_at and duration_ms fields are outside the embedding. -/
structure StepExecutionResult where
  step_id : Option String := none
  plugin_id : String
  plugin_name : Option String := none
  function_name : String
  params : Params := []
  success : Bool
  result : Option Value := none
  error : Option String := none
deriving DecidableEq

/-- Per-step body of TaskExecutor.execute from
    src/core/tasks/executor.py. callF abstracts the body of the try block
    (resolve the plugin by id with fallback to lookup by name, then await
    PluginManager.call): .error e is any exception raised inside the try,
    which the except block converts into a failed result with error
    str(e); a returned Result yields a successful result carrying
    result.value. -/
def TaskExecutor.executeStep (callF : TaskStepResponse → Except String Result)
    (step : TaskStepResponse) : StepExecutionResult :=
  match callF step with
  | .ok r =>
      { step_id := some step.step_id, plugin_id := step.plugin_id,
        plugin_name := some step.plugin_name, function_name := step.function_name,
        params := step.params, success := true, result := r.value }
  | .error e =>
      { step_id := some step.step_id, plugin_id := step.plugin_id,
        plugin_name := some step.plugin_name, function_name := step.function_name,
        params := step.params, success := false, result := none, error := some e }

/-- Translation of TaskExecutor.execute: run every step in order, one
    result per step, never propagating an exception. -/
def TaskExecutor.execute (callF : TaskStepResponse → Except String Result)
    (task : TaskResponse) : List StepExecutionResult :=
  task.steps.map (TaskExecutor.executeStep callF)

/-- Selected-plugin metadata from
    src/core/ai/providers/response/plugins_selection.py. -/
structure PluginSelectionMata where
  plugin_name : String
  plugin_id : String
  reason : String
  confidence : Rat
deriving DecidableEq

/-- Translation of the Task row from src/core/tasks/model/models.py,
    restricted to the fields the claims read; datetimes are abstract Nat
    instants, execution_plan and result hold the structured values whose
    serializations the source stores. The extra JSON column is modelled by
    its one written key, selected_plugins. -/
structure Task where
  task_id : String
  user_id : String
  description : String := ""
  status : TaskStatus := .pending
  execution_plan : Option ExecutionPlan := none
  result : Option (List StepExecutionResult) := none
  error : Option String := none
  priority : Int := 0
  extra_selected_plugins : List PluginSelectionMata := []
  created_at : Nat := 0
  scheduled_at : Option Nat := none
  started_at : Option Nat := none
  finished_at : Option Nat := none
deriving DecidableEq

/-- Translation of the TaskStep row from src/core/tasks/model/models.py. -/
structure TaskStep where
  step_id : String
  task_id : String
  plugin_id : String
  plugin_name : String
  function_name : String
  params : Params := []
  status : TaskStatus := .pending
  result : Option Value := none
  error : Option String := none
  retry_count : Nat := 0
  max_retries : Nat := 0
deriving DecidableEq

/-- Step 3 of TaskScheduler.execute from
    src/core/scheduler/task_scheduler.py: a step result is persisted as
    SUCCESS when its success flag holds, else FAILED. -/
def TaskScheduler.stepStatus (r : StepExecutionResult) : TaskStatus :=
  if r.success then .success else .failed

/-- Step 4 of TaskScheduler.execute: the task is successful exactly when
    every step result reports success. -/
def TaskScheduler.finalStatus (rs : List StepExecutionResult) : TaskStatus :=
  if rs.all (fun r => r.success) then .success else .failed

/-- Persisting the terminal task state in step 4 of TaskScheduler.execute:
    status, aggregated ordered result list and finished_at. -/
def TaskScheduler.finalizeTask (t : Task) (rs : List StepExecutionResult) (now : Nat) : Task :=
  { t with status := TaskScheduler.finalStatus rs, result := some rs, finished_at := some now }

/- ===================== Task service (C2) ===================== -/

/-- Translation of PlanResult from src/core/orchestration/model. -/
structure PlanResult where
  success : Bool := false
  user_input : Option String := none
  selected_plugins : List PluginSelectionMata := []
  plugin_functions : List FunctionSelection := []
  execution_plan : Option ExecutionPlan := none
  error : Option String := none
  suggestion : Option String := none
deriving DecidableEq

/-- Shape of the dict TaskService.create_task_from_input returns; the
    raw plan diagnostics echoed on failure carry no claim content and are
    omitted. -/
structure CreateTaskResponse where
  success : Bool
  task_id : Option String := none
  step_count : Option Nat := none
  error : Option String := none
deriving DecidableEq

/-- Relational store visible after commit: the tasks and task_steps
    tables. -/
structure Database where
  tasks : List Task := []
  steps : List TaskStep := []
deriving DecidableEq

/-- Python or on an optional string against a fallback: an absent or empty
    left operand yields the right one. -/
def pyOrStr (a : Option String) (b : String) : String :=
  match a with
  | some s => if s == "" then b else s
  | none => b

/-- One TaskStep row as built by the loop of
    StepHandler.create_steps_for_task in src/core/tasks/step_handler.py:
    step id is the task id, an underscore and the 1-based position; params
    default to the empty dict when suggested_params is absent. -/
def StepHandler.mkStepRow (task_id : String) (idx : Nat) (fs : FunctionSelection) : TaskStep :=
  { step_id := task_id ++ "_" ++ toString (idx + 1),
    task_id := task_id,
    plugin_id := fs.plugin_id,
    plugin_name := fs.plugin_name,
    function_name := fs.function_name,
    params := fs.suggested_params.getD [],
    status := .pending }

/-- The enumerate loop of StepHandler.create_steps_for_task. -/
def StepHandler.buildSteps (task_id : String) : Nat → List FunctionSelection → List TaskStep
  | _, [] => []
  | idx, fs :: rest =>
      StepHandler.mkStepRow task_id idx fs :: StepHandler.buildSteps task_id (idx + 1) rest

/-- Translation of StepHandler.create_steps_for_task: no plan or no
    ordered functions builds no rows; otherwise one row per ordered
    function selection, added to the session. The returned count is the
    length of this list. -/
def StepHandler.create_steps_for_task (task_id : String) (plan : Option ExecutionPlan) :
    List TaskStep :=
  match plan with
  | none => []
  | some ep => StepHandler.buildSteps task_id 0 ep.get_ordered_functions

/-- Translation of TaskService.create_task_from_input from
    src/core/tasks/service_task.py, with the planner call already
    performed (plan_result) and the generated uuid, clock instant and user
    input as parameters. materializationFault models an exception raised
    inside the session block before commit (the forced failure of the spec
    scenario): the except block catches it and returns a structured
    failure, and since commit never ran the scoped session rolls back,
    leaving the store unchanged. Only the final commit publishes the new
    task row and its step rows, in one transaction. -/
def TaskService.create_task_from_input (db : Database) (user_input : String)
    (plan_result : PlanResult) (task_id user_id : String) (now : Nat)
    (materializationFault : Bool) : CreateTaskResponse × Database :=
  if plan_result.success = false then
    ({ success := false, error := some (plan_result.error.getD "Plan generation failed") }, db)
  else
    let task : Task :=
      { task_id := task_id, user_id := user_id,
        description := pyOrStr plan_result.user_input user_input,
        status := .pending,
        execution_plan := plan_result.execution_plan,
        extra_selected_plugins := plan_result.selected_plugins,
        created_at := now, scheduled_at := some now }
    let steps := StepHandler.create_steps_for_task task_id plan_result.execution_plan
    if materializationFault then
      ({ success := false, error := some "Failed to create task" }, db)
    else
      ({ success := true, task_id := some task_id, step_count := some steps.length },
       { db with tasks := db.tasks ++ [task], steps := db.steps ++ steps })

/- ===================== Discovery (C7) ===================== -/

/-- One immediate subdirectory of the plugins root as discovery sees it:
    whether the two candidate entry files exist, and what executing the
    entry inside the plugin environment would yield (harvested exported
    class names, or the exception it raised). -/
structure PluginDir where
  name : String
  hasInit : Bool
  hasMain : Bool
  loadOutcome : Except String (List String)

/-- Translation of PluginDiscoveryResult from
    src/core/plugin/model/plugins.py, with classes as names. -/
structure PluginDiscoveryResult where
  path : String
  entry_file : String
  plugin_classes : List String
deriving DecidableEq

/-- Translation of PluginDiscovery._load_plugin_initializer from
    src/core/plugin/discovery.py: the __init__.py when present, else the
    main.py when present, else None. -/
def PluginDiscovery.load_plugin_entry (d : PluginDir) : Option String :=
  if d.hasInit then some (d.name ++ "/__init__.py")
  else if d.hasMain then some (d.name ++ "/main.py")
  else none

/-- Translation of PluginDiscovery._load_plugin_with_isolation. When the
    entry resolver returns None, the guard not init_path.exists()
    dereferences None and raises AttributeError before the try block, so
    the skip-with-warning branch never runs; when an entry is returned it
    exists by construction, so the guard passes and loading proceeds
    inside the environment, where the inner try/except logs a load failure
    and swallows it without appending a result. -/
def PluginDiscovery.load_plugin_with_isolation (d : PluginDir) :
    Except String (Option PluginDiscoveryResult) :=
  match PluginDiscovery.load_plugin_entry d with
  | none => .error "AttributeError: NoneType object has no attribute exists"
  | some entry =>
      match d.loadOutcome with
      | .ok classes => .ok (some { path := d.name, entry_file := entry, plugin_classes := classes })
      | .error _ => .ok none

/-- Translation of the loop of PluginDiscovery.start: each subdirectory is
    processed in turn with no surrounding try, so an exception from
    _load_plugin_with_isolation propagates and aborts the pass. -/
def PluginDiscovery.start : List PluginDir → Except String (List PluginDiscoveryResult)
  | [] => .ok []
  | d :: rest =>
      match PluginDiscovery.load_plugin_with_isolation d with
      | .error e => .error e
      | .ok none => PluginDiscovery.start rest
      | .ok (some r) =>
          match PluginDiscovery.start rest with
          | .error e => .error e
          | .ok rs => .ok (r :: rs)

/- ===================== Plan service (C8) ===================== -/

/-- Translation of PluginsSelection from
    src/core/ai/providers/response/plugins_selection.py. -/
structure PluginsSelection where
  analysis : String := ""
  selected_plugins : List PluginSelectionMata := []
  overall_confidence : Rat := 0
deriving DecidableEq

/-- The per-entry loop of PluginsSelection.from_content: reading a missing
    key of an entry raises KeyError, converted to ValueError (Invalid data
    format) by the except clause; the first bad entry aborts. -/
def buildPluginMetas : List RawPluginEntry → Except String (List PluginSelectionMata)
  | [] => .ok []
  | e :: rest =>
      match e.plugin_name, e.plugin_id, e.reason, e.confidence with
      | some nm, some pid, some rsn, some conf =>
          match buildPluginMetas rest with
          | .error err => .error err
          | .ok ms => .ok ({ plugin_name := nm, plugin_id := pid, reason := rsn,
                             confidence := conf } :: ms)
      | _, _, _, _ => .error "Invalid data format: missing plugin entry key"

/-- Translation of PluginsSelection.from_content: invalid JSON raises
    ValueError (Invalid JSON format); a missing required key raises
    ValueError (Missing required fields), which no except clause of the
    method catches; a bad entry raises ValueError (Invalid data format).
    The method either returns a selection or raises: it never returns
    None. -/
def PluginsSelection.from_content : Option AIContent → Except String PluginsSelection
  | none => .error "Invalid data format: content is not a string"
  | some (.invalid msg) => .error ("Invalid JSON format: " ++ msg)
  | some (.selectionObj a ps c) =>
      if a.isNone || ps.isNone || c.isNone then
        .error "Missing required fields"
      else
        match buildPluginMetas (ps.getD []) with
        | .error e => .error e
        | .ok ms =>
            .ok { analysis := a.getD "", selected_plugins := ms,
                  overall_confidence := c.getD 0 }

/-- Translation of PlanService.select_plugins from
    src/core/orchestration/plan_service.py, with the prompt construction
    elided (it reads no claim-relevant state): call the completion
    capability with fallback, return the empty selection when the response
    reports failure, else parse the content. An exception from the
    fallback call or from from_content propagates to the caller; the
    source guard comparing the parsed value against None is unreachable
    because from_content never returns None. -/
def PlanService.select_plugins (m : AIManager) (primary : String) (fallbacks : List String) :
    Except String (List PluginSelectionMata) :=
  match m.call_with_fallback primary fallbacks with
  | .error e => .error e
  | .ok resp =>
      if resp.success = false then .ok []
      else
        match PluginsSelection.from_content resp.data with
        | .error e => .error e
        | .ok sel => .ok sel.selected_plugins

/- ===================== Concrete fixtures ===================== -/

/-- Plugin whose only catalog entry names a method whose invocation
    raises. -/
def raisingPlugin : PluginRegistration :=
  { path := some "/plugins/p1", entry_file := "__init__.py", id := "p1",
    plugin_services := [{ functions := [{ name := some "boom" }],
                          invoke := fun _ _ => .error "kaboom" }] }

/-- Plugin with no services at all. -/
def emptyPlugin : PluginRegistration :=
  { path := some "/plugins/p2", entry_file := "__init__.py", id := "p2",
    plugin_services := [] }

/-- Plugin whose catalog entry ping invokes successfully. -/
def okPlugin : PluginRegistration :=
  { path := some "/plugins/p3", entry_file := "__init__.py", id := "p3",
    plugin_services := [{ functions := [{ name := some "ping" }],
                          invoke := fun _ _ => .ok "pong" }] }

/-- Concrete step used in witnesses. -/
def demoStep : TaskStepResponse :=
  { step_id := "t_1", plugin_id := "p1", plugin_name := "cam", function_name := "shoot" }

/-- Concrete step result with a chosen success flag. -/
def demoStepResult (ok : Bool) : StepExecutionResult :=
  { plugin_id := "p", function_name := "f", success := ok }

/-- Plugin directory with an entry file that loads one exported class. -/
def goodDir : PluginDir :=
  { name := "cam", hasInit := true, hasMain := false, loadOutcome := .ok ["CameraPlugin"] }

/-- Plugin directory with neither __init__.py nor main.py. -/
def noEntryDir : PluginDir :=
  { name := "broken", hasInit := false, hasMain := false, loadOutcome := .ok [] }

/-- Manager whose single provider answers successfully with content that
    is not valid JSON. -/
def managerBadJson : AIManager :=
  ⟨[("openai", .ok { success := true, data := some (.invalid "Expecting value") })]⟩

/-- Concrete function selection with suggested params. -/
def fsEx : FunctionSelection :=
  { plugin_name := "cam", plugin_id := "p1", function_name := "shoot",
    full_method_name := "cam.shoot", description := "", reason := "",
    confidence := 1, suggested_params := some [("mode", "hd")] }

/-- Concrete one-function execution plan. -/
def epEx : ExecutionPlan := { selected_functions := [fsEx], execution_order := [1] }

/-- Concrete successful plan result. -/
def prEx : PlanResult :=
  { success := true, user_input := some "take a photo", execution_plan := some epEx }

/-- Concrete registration discovered first at a path. -/
def pEx : PluginRegistration :=
  { path := some "/plugins/cam", entry_file := "__init__.py", id := "id1" }

/-- Concrete registration re-discovered later at the same path with a
    fresh id. -/
def qEx : PluginRegistration :=
  { path := some "/plugins/cam", entry_file := "__init__.py", id := "id2" }

end Nuwa

namespace Nuwa

/- ===================== Theorems: C6 and C9 ===================== -/

/-- Helper: the translated loop equals filter-then-map on any order list. -/
theorem filterMap_order_eq_filter_map (fns : List FunctionSelection) (orders : List Int) :
    orders.filterMap (fun order =>
        if 1 ≤ order ∧ order ≤ (fns.length : Int) then
          fns[(order - 1).toNat]?
        else none) =
      (orders.filter (fun o => decide (1 ≤ o ∧ o ≤ (fns.length : Int)))).map
        (fun o => fns.getD (o - 1).toNat default) := by
  induction orders with
  | nil => rfl
  | cons o rest ih =>
    rw [List.filterMap_cons, List.filter_cons]
    by_cases h : 1 ≤ o ∧ o ≤ (fns.length : Int)
    · obtain ⟨h1, h2⟩ := h
      have hlt : (o - 1).toNat < fns.length := by omega
      rw [if_pos ⟨h1, h2⟩, List.getElem?_eq_getElem hlt, decide_eq_true ⟨h1, h2⟩,
        if_pos rfl, List.map_cons, List.getD_eq_getElem?_getD,
        List.getElem?_eq_getElem hlt, Option.getD_some, ih]
    · rw [if_neg h, decide_eq_false h, if_neg Bool.false_ne_true]
      exact ih

/-- C6: get_ordered_functions returns the selected functions reindexed by
    the 1-based in-range indices of execution_order, silently skipping any
    index outside the range 1..len(selected_functions); in particular
    order [2,1,3] over three functions yields [f2,f1,f3] and an index of 5
    against three functions contributes nothing. -/
theorem c6_get_ordered_functions_reindexes (p : ExecutionPlan)
    (f1 f2 f3 : FunctionSelection) :
    p.get_ordered_functions = orderedFunctionsSpec p ∧
    (ExecutionPlan.get_ordered_functions
        { selected_functions := [f1, f2, f3], execution_order := [2, 1, 3] } =
      [f2, f1, f3]) ∧
    (ExecutionPlan.get_ordered_functions
        { selected_functions := [f1, f2, f3], execution_order := [2, 1, 5, 3] } =
      [f2, f1, f3]) ∧
    (∀ o : Int, (o < 1 ∨ (p.selected_functions.length : Int) < o) →
      ExecutionPlan.get_ordered_functions
          { p with execution_order := p.execution_order ++ [o] } =
        p.get_ordered_functions) := by
  refine ⟨filterMap_order_eq_filter_map p.selected_functions p.execution_order, ?_, ?_, ?_⟩
  · rfl
  · rfl
  · intro o ho
    unfold ExecutionPlan.get_ordered_functions
    simp only [List.filterMap_append, List.filterMap_cons, List.filterMap_nil]
    have : ¬(1 ≤ o ∧ o ≤ (p.selected_functions.length : Int)) := by omega
    rw [if_neg this]
    simp

/-- Witness for C6 at concrete inputs: instantiates the theorem with an
    explicit plan and three explicit functions. -/
theorem c6_witness :
    ExecutionPlan.get_ordered_functions
        { selected_functions :=
            [{ plugin_name := "p", plugin_id := "1", function_name := "a",
               full_method_name := "p.a", description := "", reason := "", confidence := 0 },
             { plugin_name := "p", plugin_id := "1", function_name := "b",
               full_method_name := "p.b", description := "", reason := "", confidence := 0 },
             { plugin_name := "p", plugin_id := "1", function_name := "c",
               full_method_name := "p.c", description := "", reason := "", confidence := 0 }],
          execution_order := [2, 1, 3] } =
      [{ plugin_name := "p", plugin_id := "1", function_name := "b",
         full_method_name := "p.b", description := "", reason := "", confidence := 0 },
       { plugin_name := "p", plugin_id := "1", function_name := "a",
         full_method_name := "p.a", description := "", reason := "", confidence := 0 },
       { plugin_name := "p", plugin_id := "1", function_name := "c",
         full_method_name := "p.c", description := "", reason := "", confidence := 0 }] :=
  (c6_get_ordered_functions_reindexes { } _ _ _).2.1

/-- C9: leaving a plugin environment restores the module table and the
    search path to exactly their state at entry, on the normal path and on
    the raising path alike, for every body. -/
theorem c9_environment_restores_state {E A : Type}
    (s : SysState) (pluginPath envId : String)
    (body : SysState → Except E A × SysState) :
    (withPluginEnvironment s pluginPath envId body).2 = s ∧
    (withPluginEnvironment s pluginPath envId body).1 =
      (body (pluginEnvEnter s pluginPath envId).2).1 := by
  constructor
  · rfl
  · rfl

/- ===================== Theorems: C3 ===================== -/

/-- Helper: the fallback loop over names equals the spec loop over the
    attempted outcomes, for every starting last-exception value. -/
theorem callWithFallbackGo_eq_spec (providers : List (String × ProviderOutcome))
    (names : List String) (last : Option String) :
    callWithFallbackGo providers names last =
      fallbackSpecGo (names.filterMap (fun n => (findProvider providers n).map Prod.snd)) last := by
  induction names generalizing last with
  | nil => cases last <;> rfl
  | cons name rest ih =>
    rw [List.filterMap_cons]
    cases hf : findProvider providers name with
    | none =>
        simp only [callWithFallbackGo, hf, Option.map_none]
        exact ih last
    | some kv =>
        obtain ⟨nm, outcome⟩ := kv
        cases outcome with
        | error e =>
            simp only [callWithFallbackGo, hf, Option.map_some, fallbackSpecGo]
            exact ih (some e)
        | ok r =>
            simp only [callWithFallbackGo, hf, Option.map_some, fallbackSpecGo]
            by_cases hs : r.success
            · rw [if_pos hs, if_pos hs]
            · rw [if_neg hs, if_neg hs]
              exact ih last

/-- C3 amended: providers are tried in order of primary then fallback list
    with case-insensitive matching, unconfigured names are skipped, the
    first provider that executes without error and reports success wins
    and no later provider is attempted; if every attempted provider fails,
    the last exception raised among them is propagated, and if none raised
    an exception a generic all-providers-failed error is raised (not the
    failure of the last unsuccessful response). The scenario A fails, B
    fails, C succeeds returns the response of C and never attempts a
    fourth provider D, whatever D would do. -/
theorem c3_fallback_amended (m : AIManager) (primary : String)
    (fallback_providers : List String) :
    m.call_with_fallback primary fallback_providers =
      fallbackSpec (fallbackAttempts m (primary :: fallback_providers)) ∧
    (∀ d : ProviderOutcome,
      AIManager.call_with_fallback
          ⟨[("A", .error "errA"), ("B", .error "errB"), ("C", .ok respC), ("D", d)]⟩
          "A" ["B", "C", "D"] = .ok respC) := by
  constructor
  · exact callWithFallbackGo_eq_spec m.providers (primary :: fallback_providers) none
  · intro d
    rfl

/-- C3 counterexample: with provider A raising errA and the last provider
    B returning an unsuccessful response, the call propagates errA, the
    exception of the earlier provider A, not the failure of the last
    failing provider B; so the claim that the last failure is propagated
    is false as stated. -/
theorem c3_counterexample :
    managerAB.call_with_fallback "A" ["B"] = .error "errA" ∧
    findProvider managerAB.providers "B" = some ("B", .ok respBFail) ∧
    respBFail.success = false ∧
    .error "errA" ≠ (.ok respBFail : ProviderOutcome) ∧
    "errA" ≠ respBFail.error_message := by
  refine ⟨rfl, rfl, rfl, ?_, ?_⟩
  · intro h
    exact Except.noConfusion h
  · intro h
    exact absurd h (by decide)

/- ===================== Theorems: C1 ===================== -/

/-- Helper: a found element satisfies the search predicate. -/
theorem find?_pred {α : Type} (p : α → Bool) (l : List α) (a : α)
    (h : l.find? p = some a) : p a = true :=
  List.find?_some h

/-- Helper: call is characterized by the first service whose catalog holds
    the method name. -/
theorem callServices_eq_findService (plugin_id method_name : String) (kwargs : Params)
    (services : List PluginServiceDefinition) :
    callServices plugin_id method_name kwargs services =
      match findServiceWithMethod services method_name with
      | none => .error ("Method " ++ method_name ++ " not found in plugin " ++ plugin_id)
      | some s =>
          match s.invoke method_name kwargs with
          | .ok v => .ok (Result.mkOk v)
          | .error e => .error e := by
  induction services with
  | nil => rfl
  | cons s rest ih =>
    rw [callServices, findServiceWithMethod, List.find?_cons]
    cases hfind : s.functions.find? (fun f => f.name == some method_name) with
    | some f =>
        have hp : (f.name == some method_name) = true :=
          find?_pred (fun f => f.name == some method_name) s.functions f hfind
        have hmem : f ∈ s.functions := List.mem_of_find?_eq_some hfind
        have hany : s.functions.any (fun f => f.name == some method_name) = true :=
          List.any_eq_true.mpr ⟨f, hmem, hp⟩
        rw [hany]
    | none =>
        have hany : s.functions.any (fun f => f.name == some method_name) = false := by
          rw [List.any_eq_false]
          intro f hf
          have := List.find?_eq_none.mp hfind f hf
          simpa using this
        rw [hany]
        rw [ih, findServiceWithMethod]

/-- C1 counterexample: a raising invocation and a function-not-found both
    escape PluginManager.call as exceptions instead of being returned as
    an error Result, so the claim that no exception escapes the call
    boundary is false as stated. -/
theorem c1_counterexample :
    PluginManager.call raisingPlugin "boom" [] = .error "kaboom" ∧
    PluginManager.call emptyPlugin "shoot" [] =
      .error "Method shoot not found in plugin p2" :=
  ⟨rfl, rfl⟩

/-- C1 amended: inside PluginManager.call a successful invocation of the
    first catalog match is wrapped in an ok Result, while a missing
    function raises a not-found exception and a raising invocation is
    re-raised, both escaping call; TaskExecutor.execute then converts
    every exception of a step into a failed StepExecutionResult with the
    exception text as error, produces one result per step, and lets no
    exception escape the step loop. -/
theorem c1_call_raises_and_executor_converts :
    (∀ (p : PluginRegistration) (m : String) (k : Params),
      findServiceWithMethod p.plugin_services m = none →
        PluginManager.call p m k =
          .error ("Method " ++ m ++ " not found in plugin " ++ p.id)) ∧
    (∀ (p : PluginRegistration) (m : String) (k : Params) (s : PluginServiceDefinition)
        (e : String),
      findServiceWithMethod p.plugin_services m = some s → s.invoke m k = .error e →
        PluginManager.call p m k = .error e) ∧
    (∀ (p : PluginRegistration) (m : String) (k : Params) (s : PluginServiceDefinition)
        (v : Value),
      findServiceWithMethod p.plugin_services m = some s → s.invoke m k = .ok v →
        PluginManager.call p m k = .ok (Result.mkOk v)) ∧
    (∀ (callF : TaskStepResponse → Except String Result) (task : TaskResponse),
      (TaskExecutor.execute callF task).length = task.steps.length) ∧
    (∀ (callF : TaskStepResponse → Except String Result) (step : TaskStepResponse)
        (e : String),
      callF step = .error e →
        (TaskExecutor.executeStep callF step).success = false ∧
        (TaskExecutor.executeStep callF step).error = some e) ∧
    (∀ (callF : TaskStepResponse → Except String Result) (step : TaskStepResponse)
        (r : Result),
      callF step = .ok r →
        (TaskExecutor.executeStep callF step).success = true ∧
        (TaskExecutor.executeStep callF step).result = r.value) := by
  refine ⟨?_, ?_, ?_, ?_, ?_, ?_⟩
  · intro p m k h
    rw [PluginManager.call, callServices_eq_findService, h]
  · intro p m k s e hs he
    simp only [PluginManager.call, callServices_eq_findService, hs, he]
  · intro p m k s v hs hv
    simp only [PluginManager.call, callServices_eq_findService, hs, hv]
  · intro callF task
    exact List.length_map _ _
  · intro callF step e h
    rw [TaskExecutor.executeStep, h]
    exact ⟨rfl, rfl⟩
  · intro callF step r h
    rw [TaskExecutor.executeStep, h]
    exact ⟨rfl, rfl⟩

/-- Witness for C1 amended at concrete inputs: a successful invocation is
    wrapped, a raising step is converted to a failed step result. -/
theorem c1_amended_witness :
    PluginManager.call okPlugin "ping" [] = .ok (Result.mkOk "pong") ∧
    (TaskExecutor.executeStep (fun _ => .error "kaboom") demoStep).success = false ∧
    (TaskExecutor.executeStep (fun _ => .error "kaboom") demoStep).error = some "kaboom" := by
  refine ⟨?_, ?_, ?_⟩
  · exact c1_call_raises_and_executor_converts.2.2.1 okPlugin "ping" []
      (okPlugin.plugin_services.get ⟨0, by decide⟩) "pong" rfl rfl
  · exact (c1_call_raises_and_executor_converts.2.2.2.2.1
      (fun _ => .error "kaboom") demoStep "kaboom" rfl).1
  · exact (c1_call_raises_and_executor_converts.2.2.2.2.1
      (fun _ => .error "kaboom") demoStep "kaboom" rfl).2

/- ===================== Theorems: C5 and C10 ===================== -/

/-- C5: after the scheduler finalizes a claimed task, the persisted status
    is success exactly when every executed step result reports success,
    and failed otherwise; steps success, failed, success yield failed and
    steps success, success yield success. -/
theorem c5_terminal_status (callF : TaskStepResponse → Except String Result)
    (task : TaskResponse) (t : Task) (now : Nat) :
    ((TaskScheduler.finalizeTask t (TaskExecutor.execute callF task) now).status =
        TaskStatus.success ↔
      ∀ r ∈ TaskExecutor.execute callF task, r.success = true) ∧
    ((TaskScheduler.finalizeTask t (TaskExecutor.execute callF task) now).status =
        TaskStatus.success ∨
      (TaskScheduler.finalizeTask t (TaskExecutor.execute callF task) now).status =
        TaskStatus.failed) ∧
    (TaskScheduler.finalizeTask t
        [demoStepResult true, demoStepResult false, demoStepResult true] now).status =
      TaskStatus.failed ∧
    (TaskScheduler.finalizeTask t [demoStepResult true, demoStepResult true] now).status =
      TaskStatus.success := by
  refine ⟨?_, ?_, rfl, rfl⟩
  · rw [TaskScheduler.finalizeTask]
    by_cases h : (TaskExecutor.execute callF task).all (fun r => r.success)
    · simp only [TaskScheduler.finalStatus, if_pos h]
      simpa [List.all_eq_true] using h
    · simp only [TaskScheduler.finalStatus, if_neg h]
      constructor
      · intro hcontra
        exact TaskStatus.noConfusion hcontra
      · intro hall
        exact absurd (List.all_eq_true.mpr hall) h
  · rw [TaskScheduler.finalizeTask]
    by_cases h : (TaskExecutor.execute callF task).all (fun r => r.success)
    · exact Or.inl (by simp [TaskScheduler.finalStatus, h])
    · exact Or.inr (by simp [TaskScheduler.finalStatus, h])

/-- Witness for C5 at concrete step results: success, failed, success
    finalizes as failed; success, success finalizes as success. -/
theorem c5_witness :
    (TaskScheduler.finalizeTask { task_id := "t", user_id := "u" }
        [demoStepResult true, demoStepResult false, demoStepResult true] 7).status =
      TaskStatus.failed ∧
    (TaskScheduler.finalizeTask { task_id := "t", user_id := "u" }
        [demoStepResult true, demoStepResult true] 7).status = TaskStatus.success :=
  ⟨(c5_terminal_status (fun _ => .error "e") { task_id := "t" }
      { task_id := "t", user_id := "u" } 7).2.2.1,
   (c5_terminal_status (fun _ => .error "e") { task_id := "t" }
      { task_id := "t", user_id := "u" } 7).2.2.2⟩

/-- C10: a claimed task with zero steps yields an empty step-results list
    and the finalized task status is success, the all-steps-succeeded
    aggregate holding vacuously over the empty list. -/
theorem c10_zero_steps_success (callF : TaskStepResponse → Except String Result)
    (task : TaskResponse) (t : Task) (now : Nat) :
    TaskExecutor.execute callF { task with steps := [] } = [] ∧
    (TaskScheduler.finalizeTask t
        (TaskExecutor.execute callF { task with steps := [] }) now).status =
      TaskStatus.success :=
  ⟨rfl, rfl⟩

/- ===================== Theorems: C4 ===================== -/

/-- Helper: path counts add over concatenation. -/
theorem pathCount_append (xs ys : List PluginRegistration) (pth : String) :
    pathCount (xs ++ ys) pth = pathCount xs pth + pathCount ys pth := by
  simp [pathCount, List.filter_append]

/-- Helper: path count of a singleton. -/
theorem pathCount_single (p : PluginRegistration) (pth : String) :
    pathCount [p] pth = if (p.path == some pth) then 1 else 0 := by
  by_cases h : (p.path == some pth)
  · simp [pathCount, List.filter_cons, h]
  · simp [pathCount, List.filter_cons, h]

/-- Helper: a zero path count means no member sits at that path. -/
theorem pathCount_eq_zero_iff (reg : List PluginRegistration) (pth : String) :
    pathCount reg pth = 0 ↔ ∀ r ∈ reg, ¬((r.path == some pth) = true) := by
  rw [pathCount, List.length_eq_zero, List.filter_eq_nil_iff]

/-- Helper: a successful path lookup yields a member at that path. -/
theorem getPluginByPath_eq_some (reg : List PluginRegistration) (path : Option String)
    (r : PluginRegistration) (h : PluginRegistry.getPluginByPath reg path = some r) :
    r ∈ reg ∧ (r.path == path) = true := by
  rw [PluginRegistry.getPluginByPath] at h
  exact ⟨List.mem_of_find?_eq_some h, find?_pred _ reg r h⟩

/-- Helper: a failed path lookup means no member sits at that path. -/
theorem getPluginByPath_eq_none (reg : List PluginRegistration) (path : Option String)
    (h : PluginRegistry.getPluginByPath reg path = none) :
    ∀ r ∈ reg, ¬((r.path == path) = true) := by
  rw [PluginRegistry.getPluginByPath] at h
  exact List.find?_eq_none.mp h

/-- Helper: filtering twice commutes. -/
theorem filter_swap (reg : List PluginRegistration) (f g : PluginRegistration → Bool) :
    (reg.filter f).filter g = (reg.filter g).filter f := by
  simp [List.filter_filter, Bool.and_comm]

/-- Helper: filtering can only lower a path count. -/
theorem pathCount_filter_le (reg : List PluginRegistration)
    (q : PluginRegistration → Bool) (pth : String) :
    pathCount (reg.filter q) pth ≤ pathCount reg pth :=
  List.Sublist.length_le ((List.filter_sublist reg).filter _)

/-- Helper: under path distinctness, the members at a given occupied path
    form exactly the singleton of its occupant. -/
theorem pathFilter_eq_single (reg : List PluginRegistration) (pth : String)
    (r : PluginRegistration) (hdist : PathDistinct reg) (hmem : r ∈ reg)
    (hr : (r.path == some pth) = true) :
    reg.filter (fun x => x.path == some pth) = [r] := by
  have h1 : r ∈ reg.filter (fun x => x.path == some pth) := List.mem_filter.mpr ⟨hmem, hr⟩
  have h2 : (reg.filter (fun x => x.path == some pth)).length ≤ 1 := hdist pth
  cases hl : reg.filter (fun x => x.path == some pth) with
  | nil => rw [hl] at h1; exact absurd h1 (List.not_mem_nil r)
  | cons a tail =>
      cases tail with
      | nil =>
          rw [hl] at h1
          rw [List.mem_singleton.mp h1]
      | cons b tail2 => rw [hl] at h2; simp at h2

/-- Helper: an absent path lookup means path count zero. -/
theorem pathCount_zero_of_find_none (reg : List PluginRegistration) (pth : String)
    (hfind : PluginRegistry.getPluginByPath reg (some pth) = none) :
    pathCount reg pth = 0 := by
  rw [pathCount_eq_zero_iff]
  exact getPluginByPath_eq_none reg (some pth) hfind

/-- Helper: removing the occupant of a path by id empties that path. -/
theorem pathCount_filtered_zero (reg : List PluginRegistration) (pth : String)
    (exist : PluginRegistration) (hdist : PathDistinct reg)
    (hfind : PluginRegistry.getPluginByPath reg (some pth) = some exist) :
    pathCount (reg.filter (fun r => r.id != exist.id)) pth = 0 := by
  have hmem : exist ∈ reg := (getPluginByPath_eq_some reg (some pth) exist hfind).1
  have hexp : (exist.path == some pth) = true :=
    (getPluginByPath_eq_some reg (some pth) exist hfind).2
  rw [pathCount, filter_swap, pathFilter_eq_single reg pth exist hdist hmem hexp]
  simp [List.filter_cons]

/-- Helper: path lookup over an appended singleton at the path, when the
    front part holds nothing at the path. -/
theorem getPluginByPath_append (pre : List PluginRegistration) (pnew : PluginRegistration)
    (pth : String) (hzero : pathCount pre pth = 0) (hnew : pnew.path = some pth) :
    PluginRegistry.getPluginByPath (pre ++ [pnew]) (some pth) = some pnew := by
  rw [PluginRegistry.getPluginByPath, List.find?_append]
  have hnone : pre.find? (fun r => r.path == some pth) = none := by
    rw [List.find?_eq_none]
    intro r hr
    exact (pathCount_eq_zero_iff pre pth).mp hzero r hr
  rw [hnone]
  simp [List.find?_cons, hnew]

/-- Helper: when a registration already sits at the incoming path,
    register removes it and inserts the newcomer under the old id. -/
theorem register_ok_existing (reg : List PluginRegistration) (p : PluginRegistration)
    (pth : String) (exist : PluginRegistration) (hp : p.path = some pth)
    (hfind : PluginRegistry.getPluginByPath reg p.path = some exist) :
    PluginRegistry.register reg p =
      .ok (reg.filter (fun r => r.id != exist.id) ++ [{ p with id := exist.id }]) := by
  have hmem : exist ∈ reg := (getPluginByPath_eq_some reg p.path exist hfind).1
  have hany : reg.any (fun r => r.id == exist.id) = true :=
    List.any_eq_true.mpr ⟨exist, hmem, by simp⟩
  have hnone : (reg.filter (fun r => r.id != exist.id)).any
      (fun r => r.id == exist.id) = false := by
    rw [List.any_eq_false]
    intro r hr
    have h2 := (List.mem_filter.mp hr).2
    simpa using h2
  have hfind2 : PluginRegistry.getPluginByPath reg (some pth) = some exist := hp ▸ hfind
  simp only [PluginRegistry.register, hp, hfind2, PluginRegistry.unregister, hany, if_true]
  simp [hnone]

/-- Helper: the two possible shapes of a successful register. -/
theorem register_ok_inv (reg : List PluginRegistration) (p : PluginRegistration)
    (reg1 : List PluginRegistration) (h : PluginRegistry.register reg p = .ok reg1) :
    (∃ pth, p.path = some pth ∧ PluginRegistry.getPluginByPath reg p.path = none ∧
      reg.any (fun r => r.id == p.id) = false ∧ reg1 = reg ++ [p]) ∨
    (∃ pth exist, p.path = some pth ∧
      PluginRegistry.getPluginByPath reg p.path = some exist ∧
      reg1 = reg.filter (fun r => r.id != exist.id) ++ [{ p with id := exist.id }]) := by
  cases hp : p.path with
  | none => rw [PluginRegistry.register, hp] at h; exact Except.noConfusion h
  | some pth =>
      cases hfind : PluginRegistry.getPluginByPath reg p.path with
      | none =>
          left
          have hfind2 : PluginRegistry.getPluginByPath reg (some pth) = none := hp ▸ hfind
          rw [PluginRegistry.register, hp, hfind2] at h
          by_cases hany : reg.any (fun r => r.id == p.id)
          · simp [hany] at h
          · rw [Bool.not_eq_true] at hany
            simp only [hany, Bool.false_eq_true, if_false, Except.ok.injEq] at h
            exact ⟨pth, rfl, hfind2, hany, h.symm⟩
      | some exist =>
          right
          have hfind2 : PluginRegistry.getPluginByPath reg (some pth) = some exist :=
            hp ▸ hfind
          have heq := register_ok_existing reg p pth exist hp hfind
          rw [heq, Except.ok.injEq] at h
          rw [hp] at h
          exact ⟨pth, exist, rfl, hfind2, h.symm⟩

/-- Helper: a successful register preserves both registry invariants. -/
theorem register_preserves (reg : List PluginRegistration) (p : PluginRegistration)
    (reg1 : List PluginRegistration) (hids : IdsNodup reg) (hdist : PathDistinct reg)
    (h : PluginRegistry.register reg p = .ok reg1) :
    IdsNodup reg1 ∧ PathDistinct reg1 := by
  rcases register_ok_inv reg p reg1 h with
    ⟨pth, hp, hfind, hany, hshape⟩ | ⟨pth, exist, hp, hfind, hshape⟩
  · subst hshape
    constructor
    · rw [IdsNodup, List.map_append, List.nodup_append]
      refine ⟨hids, List.nodup_singleton _, ?_⟩
      intro a ha hmem
      rcases List.mem_map.mp ha with ⟨r, hrmem, hrid⟩
      have hne := List.any_eq_false.mp hany r hrmem
      simp only [List.map_cons, List.map_nil, List.mem_singleton] at hmem
      apply hne
      rw [beq_iff_eq, hrid, hmem]
    · intro pth2
      rw [pathCount_append, pathCount_single]
      by_cases hpp : (p.path == some pth2) = true
      · have hpath2 : p.path = some pth2 := by simpa using hpp
        have hz : pathCount reg pth2 = 0 := by
          apply pathCount_zero_of_find_none
          rw [← hpath2]
          exact hfind
        rw [hz, if_pos hpp]
      · rw [if_neg (by simpa using hpp)]
        have := hdist pth2
        omega
  · subst hshape
    have hmem : exist ∈ reg := (getPluginByPath_eq_some reg p.path exist hfind).1
    have hexp : (exist.path == p.path) = true :=
      (getPluginByPath_eq_some reg p.path exist hfind).2
    constructor
    · rw [IdsNodup, List.map_append, List.nodup_append]
      refine ⟨?_, List.nodup_singleton _, ?_⟩
      · exact hids.sublist ((List.filter_sublist reg).map _)
      · intro a ha hmem2
        rcases List.mem_map.mp ha with ⟨r, hrmem, hrid⟩
        have h2 := (List.mem_filter.mp hrmem).2
        simp only [List.map_cons, List.map_nil, List.mem_singleton] at hmem2
        have hre : r.id = exist.id := by rw [hrid, hmem2]
        simp [hre] at h2
    · intro pth2
      rw [pathCount_append, pathCount_single]
      by_cases hpp : (({ p with id := exist.id } : PluginRegistration).path == some pth2) = true
      · have hpath2 : p.path = some pth2 := by simpa using hpp
        have hexp2 : (exist.path == some pth2) = true := by
          rw [← hpath2]; exact hexp
        have hz : pathCount (reg.filter (fun r => r.id != exist.id)) pth2 = 0 := by
          rw [pathCount, filter_swap,
            pathFilter_eq_single reg pth2 exist hdist hmem hexp2]
          simp [List.filter_cons]
        rw [hz, if_pos hpp]
      · rw [if_neg (by simpa using hpp)]
        have h1 := pathCount_filter_le reg (fun r => r.id != exist.id) pth2
        have h2 := hdist pth2
        omega

/-- Helper: a successful register leaves exactly one registration at the
    incoming path, found by lookup, at the tail of the registry. -/
theorem register_ok_lookup (reg : List PluginRegistration) (p : PluginRegistration)
    (pth : String) (reg1 : List PluginRegistration) (hdist : PathDistinct reg)
    (hp : p.path = some pth) (h : PluginRegistry.register reg p = .ok reg1) :
    ∃ pre pnew, reg1 = pre ++ [pnew] ∧ pnew.path = some pth ∧
      pathCount pre pth = 0 ∧
      PluginRegistry.getPluginByPath reg1 (some pth) = some pnew := by
  rcases register_ok_inv reg p reg1 h with
    ⟨pth0, hp0, hfind, hany, hshape⟩ | ⟨pth0, exist, hp0, hfind, hshape⟩
  · have hzero : pathCount reg pth = 0 := by
      apply pathCount_zero_of_find_none
      rw [← hp]
      exact hfind
    refine ⟨reg, p, hshape, hp, hzero, ?_⟩
    rw [hshape]
    exact getPluginByPath_append reg p pth hzero hp
  · have hfind2 : PluginRegistry.getPluginByPath reg (some pth) = some exist := hp ▸ hfind
    have hzero : pathCount (reg.filter (fun r => r.id != exist.id)) pth = 0 :=
      pathCount_filtered_zero reg pth exist hdist hfind2
    refine ⟨reg.filter (fun r => r.id != exist.id), { p with id := exist.id },
      hshape, hp, hzero, ?_⟩
    rw [hshape]
    exact getPluginByPath_append _ _ pth hzero hp

/-- C4: the registry keeps at most one registration per filesystem path
    and reuses the occupant id on re-registration. A successful register
    preserves the id-uniqueness and path-uniqueness invariants; after
    registering p at a path and then q at the same path, the second
    register removes the occupant r1 and inserts q under the id of r1, the
    path holds exactly one registration both times, and the final occupant
    of the path is q carrying the stable id of r1; and the occupant lookup
    after the first register always succeeds. -/
theorem c4_register_path_identity :
    (∀ (reg : List PluginRegistration) (p : PluginRegistration)
        (reg1 : List PluginRegistration),
      IdsNodup reg → PathDistinct reg → PluginRegistry.register reg p = .ok reg1 →
      IdsNodup reg1 ∧ PathDistinct reg1) ∧
    (∀ (reg : List PluginRegistration) (p q r1 : PluginRegistration) (pth : String)
        (reg1 : List PluginRegistration),
      IdsNodup reg → PathDistinct reg → p.path = some pth → q.path = some pth →
      PluginRegistry.register reg p = .ok reg1 →
      PluginRegistry.getPluginByPath reg1 (some pth) = some r1 →
      pathCount reg1 pth = 1 ∧
      PluginRegistry.register reg1 q =
        .ok (reg1.filter (fun r => r.id != r1.id) ++ [{ q with id := r1.id }]) ∧
      pathCount (reg1.filter (fun r => r.id != r1.id) ++ [{ q with id := r1.id }]) pth = 1 ∧
      PluginRegistry.getPluginByPath
          (reg1.filter (fun r => r.id != r1.id) ++ [{ q with id := r1.id }]) (some pth) =
        some { q with id := r1.id }) ∧
    (∀ (reg : List PluginRegistration) (p : PluginRegistration) (pth : String)
        (reg1 : List PluginRegistration),
      PathDistinct reg → p.path = some pth → PluginRegistry.register reg p = .ok reg1 →
      (PluginRegistry.getPluginByPath reg1 (some pth)).isSome = true) := by
  refine ⟨register_preserves, ?_, ?_⟩
  · intro reg p q r1 pth reg1 hids hdist hp hq hreg hlook
    have hpres := register_preserves reg p reg1 hids hdist hreg
    rcases register_ok_lookup reg p pth reg1 hdist hp hreg with
      ⟨pre, pnew, hshape, hnewpath, hzero, hlook2⟩
    have hcount1 : pathCount reg1 pth = 1 := by
      rw [hshape, pathCount_append, hzero, pathCount_single,
        if_pos (by simp [hnewpath])]
    have hfindq : PluginRegistry.getPluginByPath reg1 q.path = some r1 := by
      rw [hq]
      exact hlook
    have hreg2 := register_ok_existing reg1 q pth r1 hq hfindq
    have hzero2 : pathCount (reg1.filter (fun r => r.id != r1.id)) pth = 0 :=
      pathCount_filtered_zero reg1 pth r1 hpres.2 hlook
    refine ⟨hcount1, hreg2, ?_, ?_⟩
    · rw [pathCount_append, hzero2, pathCount_single, if_pos (by simp [hq])]
    · exact getPluginByPath_append _ _ pth hzero2 hq
  · intro reg p pth reg1 hdist hp hreg
    rcases register_ok_lookup reg p pth reg1 hdist hp hreg with
      ⟨pre, pnew, hshape, hnewpath, hzero, hlook2⟩
    rw [hlook2]
    rfl

/-- Witness for C4 at a concrete pair of registrations sharing a path:
    re-registering at the path yields exactly one registration carrying
    the first id. -/
theorem c4_witness :
    PluginRegistry.register [pEx] qEx = .ok [{ qEx with id := "id1" }] ∧
    pathCount [{ qEx with id := "id1" }] "/plugins/cam" = 1 ∧
    PluginRegistry.getPluginByPath [{ qEx with id := "id1" }] (some "/plugins/cam") =
      some { qEx with id := "id1" } := by
  have h := c4_register_path_identity.2.1 [] pEx qEx pEx "/plugins/cam" [pEx]
    (by simp [IdsNodup]) (fun pth => Nat.zero_le 1) rfl rfl rfl rfl
  refine ⟨?_, ?_, ?_⟩
  · rw [h.2.1]
    rfl
  · exact h.2.2.1
  · exact h.2.2.2

/- ===================== Theorems: C2 ===================== -/

/-- Helper: the step-building loop yields one row per ordered function. -/
theorem buildSteps_length (tid : String) (base : Nat) (l : List FunctionSelection) :
    (StepHandler.buildSteps tid base l).length = l.length := by
  induction l generalizing base with
  | nil => rfl
  | cons fs rest ih => simp [StepHandler.buildSteps, ih]

/-- Helper: the row at position i of the step-building loop is built from
    the function at position i with running index base + i. -/
theorem buildSteps_getElem? (tid : String) (base : Nat) (l : List FunctionSelection)
    (i : Nat) :
    (StepHandler.buildSteps tid base l)[i]? =
      (l[i]?).map (fun fs => StepHandler.mkStepRow tid (base + i) fs) := by
  induction l generalizing base i with
  | nil => simp [StepHandler.buildSteps]
  | cons fs rest ih =>
    cases i with
    | zero => simp [StepHandler.buildSteps]
    | succ n =>
        rw [StepHandler.buildSteps]
        simp only [List.getElem?_cons_succ]
        rw [ih (base + 1) n]
        have harith : base + 1 + n = base + (n + 1) := by omega
        rw [harith]

/-- C2: task creation is all-or-nothing. A failed plan yields a structured
    failure and leaves the store untouched for any fault behaviour; a
    fault raised mid-materialization before commit leaves the store
    untouched and yields a structured failure; on success exactly one Task
    (status pending, the plan and selection recorded) plus the step rows
    are committed together, and the step rows are exactly one per ordered
    FunctionSelection, the row at 0-based position i having step id
    tid underscore i plus one and params equal to the suggested params of
    that selection (empty when absent). -/
theorem c2_create_task_atomic (db : Database) (user_input : String) (pr : PlanResult)
    (tid uid : String) (now : Nat) :
    (pr.success = false →
      ∀ fault, TaskService.create_task_from_input db user_input pr tid uid now fault =
        ({ success := false, error := some (pr.error.getD "Plan generation failed") }, db)) ∧
    (pr.success = true →
      (TaskService.create_task_from_input db user_input pr tid uid now true).2 = db ∧
      (TaskService.create_task_from_input db user_input pr tid uid now true).1.success =
        false) ∧
    (pr.success = true →
      (TaskService.create_task_from_input db user_input pr tid uid now false).1 =
        { success := true, task_id := some tid,
          step_count := some (StepHandler.create_steps_for_task tid pr.execution_plan).length } ∧
      (TaskService.create_task_from_input db user_input pr tid uid now false).2 =
        { tasks := db.tasks ++
            [{ task_id := tid, user_id := uid,
               description := pyOrStr pr.user_input user_input,
               status := .pending, execution_plan := pr.execution_plan,
               extra_selected_plugins := pr.selected_plugins,
               created_at := now, scheduled_at := some now }],
          steps := db.steps ++ StepHandler.create_steps_for_task tid pr.execution_plan }) ∧
    ((StepHandler.create_steps_for_task tid pr.execution_plan).length =
      ((pr.execution_plan.map ExecutionPlan.get_ordered_functions).getD []).length) ∧
    (∀ i, (StepHandler.create_steps_for_task tid pr.execution_plan)[i]? =
      (((pr.execution_plan.map ExecutionPlan.get_ordered_functions).getD [])[i]?).map
        (fun fs => StepHandler.mkStepRow tid i fs)) := by
  refine ⟨?_, ?_, ?_, ?_, ?_⟩
  · intro h fault
    simp [TaskService.create_task_from_input, h]
  · intro h
    constructor
    · simp [TaskService.create_task_from_input, h]
    · simp [TaskService.create_task_from_input, h]
  · intro h
    constructor
    · simp [TaskService.create_task_from_input, h]
    · simp [TaskService.create_task_from_input, h]
  · cases hp : pr.execution_plan with
    | none => rfl
    | some ep =>
        simp [StepHandler.create_steps_for_task, buildSteps_length]
  · intro i
    cases hp : pr.execution_plan with
    | none => simp [StepHandler.create_steps_for_task]
    | some ep =>
        simp only [StepHandler.create_steps_for_task, Option.map_some, Option.getD_some]
        rw [buildSteps_getElem? tid 0 ep.get_ordered_functions i]
        simp

/-- Witness for C2 at a concrete successful plan with one ordered
    function: the created response, the single committed step row and the
    rolled-back fault case. -/
theorem c2_witness :
    (TaskService.create_task_from_input { } "take a photo" prEx "t1" "u1" 5 false).1 =
      { success := true, task_id := some "t1", step_count := some 1 } ∧
    (TaskService.create_task_from_input { } "take a photo" prEx "t1" "u1" 5 false).2.steps =
      [{ step_id := "t1_1", task_id := "t1", plugin_id := "p1", plugin_name := "cam",
         function_name := "shoot", params := [("mode", "hd")], status := .pending }] ∧
    (TaskService.create_task_from_input { } "take a photo" prEx "t1" "u1" 5 true).2 =
      ({ } : Database) := by
  have h := c2_create_task_atomic { } "take a photo" prEx "t1" "u1" 5
  refine ⟨?_, ?_, ?_⟩
  · rw [(h.2.2.1 rfl).1]; rfl
  · rw [(h.2.2.1 rfl).2]; rfl
  · exact (h.2.1 rfl).1

/- ===================== Theorems: C7 ===================== -/

/-- C7: evidence of the divergence — a plugin directory with no entry file
    makes the discovery pass raise AttributeError (init_path is None and
    the guard calls exists on it), aborting the pass and losing the other
    results, instead of skipping with a warning; without such a directory
    the pass returns its results normally. -/
theorem c7_no_entry_dir_raises :
    PluginDiscovery.start [goodDir, noEntryDir] =
      .error "AttributeError: NoneType object has no attribute exists" ∧
    PluginDiscovery.load_plugin_with_isolation noEntryDir =
      .error "AttributeError: NoneType object has no attribute exists" ∧
    PluginDiscovery.start [goodDir] =
      .ok [{ path := "cam", entry_file := "cam/__init__.py",
             plugin_classes := ["CameraPlugin"] }] :=
  ⟨rfl, rfl, rfl⟩

/- ===================== Theorems: C8 ===================== -/

/-- C8: evidence of the divergence — when the completion call succeeds but
    its content is not valid JSON, select_plugins raises the ValueError of
    from_content to its caller instead of returning an empty selection;
    an unsuccessful completion makes the fallback raise, which also
    escapes select_plugins; an exhausted fallback raises the last
    exception. No failure path returns the empty selection. -/
theorem c8_parse_failure_raises :
    PlanService.select_plugins managerBadJson "openai" [] =
      .error "Invalid JSON format: Expecting value" ∧
    PlanService.select_plugins ⟨[("openai", .ok { success := false })]⟩ "openai" [] =
      .error "All providers failed" ∧
    PlanService.select_plugins ⟨[("openai", .error "timeout")]⟩ "openai" [] =
      .error "timeout" :=
  ⟨rfl, rfl, rfl⟩

end Nuwa
